import Mathlib

/-
Verification of the LangClaude due-diligence workflow core.

Shallow embedding of:
  src/src/state/schema.py        (DueDiligenceState, create_initial_state)
  src/src/agents/base.py         (AgentResult, run_agent, parse_json_from_output)
  src/src/agents/research/company_profiler.py (run_company_profiler)
  src/src/workflow/routing.py    (check_init_success, check_research_completeness)
  src/src/workflow/nodes.py      (research_node, validate_research_node, analysis_node)

Modelling conventions:
 - Python `dict` entries appended to `research_outputs` / `analysis_outputs`
   have a varying key set; absent keys read through `.get` as `None`, so they
   are modelled as a structure with `Option` fields defaulting to `none`.
 - Python float division `success_count / total_count` compared against `0.5`
   is modelled with exact rational division; this agrees with IEEE double
   semantics for every list length below 2^52, far beyond any reachable state.
 - The external LLM invocation inside `run_agent` is modelled as an injected
   outcome (it completes with text, times out, or raises with a message),
   exactly the three cases `run_agent`'s try/except distinguishes.
 - `asyncio.gather(*tasks, return_exceptions=True)` returns one outcome per
   task in task-list order, each either a value or the raised exception; it is
   modelled by passing one `TaskOutcome` per task in declaration order.
 - Python string interpolation of an `Optional` value prints `None` for the
   absent case; `pyOptStr` models this.
-/

namespace LangClaude

/-- Whitespace class of Python's `str.strip` and the regex `\s` restricted to
its ASCII members (space, tab, newline, carriage return, vertical tab, form
feed); agent text is ASCII in every claim considered here. -/
def pyIsSpace (c : Char) : Bool :=
  c = ' ' || c = '\t' || c = '\n' || c = '\r' || c = Char.ofNat 11 || c = Char.ofNat 12

/-- Python `str.strip()`: drop leading and trailing whitespace. -/
def pyStrip (s : String) : String :=
  (((s.data.dropWhile pyIsSpace).reverse.dropWhile pyIsSpace).reverse).asString

/-- Python `pat in s` for strings: `pat` occurs as a contiguous substring. -/
def containsSub (pat : List Char) : List Char → Bool
  | [] => pat.isEmpty
  | c :: rest => pat.isPrefixOf (c :: rest) || containsSub pat rest

/-- Python `s.rfind(c)`: index of the last occurrence of `c`, if any. -/
def lastIdxOf (cs : List Char) (c : Char) : Option Nat :=
  (cs.reverse.findIdx? (· = c)).map (fun k => cs.length - 1 - k)

/-- Python interpolation of an `Optional[str]` into an f-string. -/
def pyOptStr : Option String → String
  | none => "None"
  | some s => s

/-- The character `{` (written via its code point). -/
def lbrace : Char := Char.ofNat 123

/-- The character `}` (written via its code point). -/
def rbrace : Char := Char.ofNat 125

/-- AgentResult (src/src/agents/base.py, class AgentResult): standardized
result of one agent call. `α` is the type of the opaque structured output. -/
structure AgentResult (α : Type) where
  success : Bool
  output : Option α := none
  raw_output : Option String := none
  error : Option String := none
  agent_name : String
  execution_time_ms : Nat
  deriving Repr, DecidableEq

/-- One entry of `research_outputs` / `analysis_outputs` as built by the stage
nodes (src/src/workflow/nodes.py). Keys absent from the Python dict are
modelled as `none` defaults, matching `.get` reads. -/
structure OutputEntry (α : Type) where
  agent : String
  output : Option α := none
  success : Bool
  error : Option String := none
  raw_output : Option String := none
  execution_time_ms : Option Nat := none
  deriving Repr, DecidableEq

/-- DueDiligenceState (src/src/state/schema.py). -/
structure DueDiligenceState (α : Type) where
  startup_name : String
  startup_description : String
  funding_stage : Option String
  research_outputs : List (OutputEntry α)
  analysis_outputs : List (OutputEntry α)
  full_report : Option String
  investment_decision : Option α
  current_stage : String
  errors : List String
  retry_count : Nat
  deriving Repr, DecidableEq

/-- create_initial_state (src/src/state/schema.py). -/
def create_initial_state (α : Type) (startup_name startup_description : String)
    (funding_stage : Option String) : DueDiligenceState α :=
  { startup_name := startup_name
    startup_description := startup_description
    funding_stage := funding_stage
    research_outputs := []
    analysis_outputs := []
    full_report := none
    investment_decision := none
    current_stage := "init"
    errors := []
    retry_count := 0 }

/-- Python `str.lower()` on the character list of a string (ASCII case
mapping, which covers the "required" marker scan). -/
def pyLowerChars (s : String) : List Char :=
  s.data.map Char.toLower

/-- check_init_success (src/src/workflow/routing.py, lines 11-29). -/
def check_init_success (s : DueDiligenceState α) : String :=
  let critical_errors := s.errors.filter (fun e => containsSub "required".data (pyLowerChars e))
  if critical_errors ≠ [] then "failed" else "success"

/-- check_research_completeness (src/src/workflow/routing.py, lines 32-72). -/
def check_research_completeness (s : DueDiligenceState α) : String :=
  let research_outputs := s.research_outputs
  let retry_count := s.retry_count
  if research_outputs.isEmpty then
    if retry_count < 2 then "incomplete" else "failed"
  else
    let success_count := (research_outputs.filter (fun r => r.success)).length
    let total_count := research_outputs.length
    if total_count = 0 then "failed"
    else
      let success_rate : ℚ := (success_count : ℚ) / (total_count : ℚ)
      if success_rate ≥ 1/2 then "complete"
      else if retry_count < 2 then "incomplete"
      else "complete"

/-- check_research_completeness with the defensive `total_count == 0` branch
(source line 58) removed; used to show that branch is unreachable. -/
def check_research_completeness_nodef (s : DueDiligenceState α) : String :=
  let research_outputs := s.research_outputs
  let retry_count := s.retry_count
  if research_outputs.isEmpty then
    if retry_count < 2 then "incomplete" else "failed"
  else
    let success_count := (research_outputs.filter (fun r => r.success)).length
    let total_count := research_outputs.length
    let success_rate : ℚ := (success_count : ℚ) / (total_count : ℚ)
    if success_rate ≥ 1/2 then "complete"
    else if retry_count < 2 then "incomplete"
    else "complete"

/-- Outcome of `await asyncio.wait_for(execute(), timeout=timeout_seconds)`
inside run_agent (src/src/agents/base.py): the injected LLM invocation either
completes with the extracted output text, exceeds the timeout (wait_for raises
asyncio.TimeoutError), or raises some other exception with message `msg`
(also covering failures before execute(), e.g. resolve_tools). -/
inductive InvokeOutcome where
  | completes (text : String)
  | timesOut
  | raises (msg : String)
  deriving Repr, DecidableEq

/-- run_agent (src/src/agents/base.py, lines 75-181). The three return sites
correspond to the three invocation outcomes; `elapsed_ms` stands for the
measured wall-clock duration `int((time.time() - start_time) * 1000)`. -/
def run_agent (α : Type) (agent_name : String) (timeout_seconds : Nat)
    (invocation : InvokeOutcome) (elapsed_ms : Nat) : AgentResult α :=
  match invocation with
  | .completes text =>
      { success := true
        output := none
        raw_output := some text
        error := none
        agent_name := agent_name
        execution_time_ms := elapsed_ms }
  | .timesOut =>
      { success := false
        output := none
        raw_output := none
        error := some ("Timeout after " ++ toString timeout_seconds ++ "s")
        agent_name := agent_name
        execution_time_ms := elapsed_ms }
  | .raises msg =>
      { success := false
        output := none
        raw_output := none
        error := some msg
        agent_name := agent_name
        execution_time_ms := elapsed_ms }

/-- The backtick character (written via its code point). -/
def backtick : Char := Char.ofNat 96

/-- Split a character list on every occurrence of the three-backtick fence,
scanning left to right without overlap (the semantics of Python
`str.split` on that separator); `acc` holds the current segment reversed. -/
def splitTicksAux (acc : List Char) : List Char → List (List Char)
  | a :: b :: c :: rest =>
    if a = backtick && b = backtick && c = backtick then
      acc.reverse :: splitTicksAux [] rest
    else
      splitTicksAux (a :: acc) (b :: c :: rest)
  | l => [acc.reverse ++ l]

/-- The captured group of one match of the pattern
`(three backticks)(?:json)?\s*([\s\S]*?)(three backticks)` given the segment
of text that follows the opening fence: the greedy `(?:json)?` consumes a
literal `json` when present, the greedy `\s*` consumes the following
whitespace, and the lazy capture keeps the rest up to the closing fence. -/
def captureOf (seg : List Char) : List Char :=
  let afterTag := if "json".data.isPrefixOf seg then seg.drop 4 else seg
  afterTag.dropWhile pyIsSpace

/-- re.findall of the fenced-code-block pattern over `output`
(src/src/agents/base.py, lines 198-201). Splitting on the fence pairs the
fences left to right without overlap, exactly as the regex engine does: the
captured regions are the odd-indexed segments that are followed by another
fence. -/
def pyFindallCodeBlocks (output : String) : List String :=
  let segs := splitTicksAux [] output.data
  ((segs.enum.filter
      (fun p => decide (p.1 % 2 = 1) && decide (p.1 + 1 < segs.length))).map
    (fun p => (captureOf p.2).asString))

/-- The loop `for match in matches: try json.loads(match.strip()) ...`:
first block whose stripped content parses. -/
def firstBlockParse (loads : String → Option α) : List String → Option α
  | [] => none
  | m :: rest =>
    match loads (pyStrip m) with
    | some v => some v
    | none => firstBlockParse loads rest

/-- The third strategy's candidate substring: `output[start_idx:end_idx+1]`
for `start_idx = output.find(lbrace)`, `end_idx = output.rfind(rbrace)`,
attempted only when both exist and `end_idx > start_idx`
(src/src/agents/base.py, lines 207-214). -/
def pyBraceSlice (output : String) : Option String :=
  let cs := output.data
  match cs.findIdx? (· = lbrace), lastIdxOf cs rbrace with
  | some start_idx, some end_idx =>
    if start_idx < end_idx then
      some (((cs.drop start_idx).take (end_idx + 1 - start_idx)).asString)
    else none
  | _, _ => none

/-- parse_json_from_output (src/src/agents/base.py, lines 183-216), with
`json.loads` abstracted as the injected partial function `loads`
(`none` models json.JSONDecodeError). -/
def parse_json_from_output (loads : String → Option α) (output : String) : Option α :=
  if output = "" then none
  else
    match loads output with
    | some v => some v
    | none =>
      match firstBlockParse loads (pyFindallCodeBlocks output) with
      | some v => some v
      | none =>
        match pyBraceSlice output with
        | some sub => loads sub
        | none => none

/-- First defined element of a list of optional parse results. -/
def firstSomeOpt : List (Option α) → Option α
  | [] => none
  | o :: rest =>
    match o with
    | some v => some v
    | none => firstSomeOpt rest

/-- The ordered fallback chain exactly as the spec words it: (1) the whole
text, (2) each fenced block in order, (3) the first-lbrace-to-last-rbrace
substring; first successful parse wins, empty input yields none. Stated as a
separate definition to be compared with `parse_json_from_output`. -/
def parse_chain_spec (loads : String → Option α) (output : String) : Option α :=
  if output = "" then none
  else
    firstSomeOpt
      ([loads output]
        ++ (pyFindallCodeBlocks output).map (fun m => loads (pyStrip m))
        ++ [(pyBraceSlice output).bind loads])

/-- run_company_profiler (src/src/agents/research/company_profiler.py,
lines 26-31): the post-processing applied to the AgentResult delivered by
run_agent. `truthy` models Python truthiness of the parsed value (the guard
`if parsed:`); the underlying agent call itself is the injected `result`. -/
def run_company_profiler (loads : String → Option α) (truthy : α → Bool)
    (result : AgentResult α) : AgentResult α :=
  match result.raw_output with
  | none => result
  | some raw =>
    if result.success && decide (raw ≠ "") then
      match parse_json_from_output loads raw with
      | none => result
      | some parsed =>
        if truthy parsed then { result with output := some parsed } else result
    else result

/-- One element of the list returned by
`asyncio.gather(*tasks, return_exceptions=True)`: either the exception the
task raised (carrying `str(exc)`) or the AgentResult it returned. -/
inductive TaskOutcome (α : Type) where
  | exn (msg : String)
  | ok (result : AgentResult α)
  deriving Repr, DecidableEq

/-- The per-agent body of the result loop shared by research_node
(src/src/workflow/nodes.py, lines 67-101) and analysis_node (lines 227-277,
including the risk_assessor branch, which builds the same dicts): yields the
dict appended to the outputs list and the message appended to `errors`
(`none` on the success branch, which appends nothing). -/
def processAgentResult (agent_name : String) (result : TaskOutcome α) :
    OutputEntry α × Option String :=
  match result with
  | .exn msg =>
    ({ agent := agent_name, output := none, success := false, error := some msg },
      some (agent_name ++ ": " ++ msg))
  | .ok r =>
    if r.success then
      ({ agent := agent_name, output := r.output, raw_output := r.raw_output,
         success := true, execution_time_ms := some r.execution_time_ms },
        none)
    else
      ({ agent := agent_name, output := none, success := false, error := r.error },
        some (agent_name ++ ": " ++ pyOptStr r.error))

/-- Names of the five research agents, in task declaration order
(src/src/workflow/nodes.py, lines 39-45). -/
def research_agent_names : List String :=
  ["company_profiler", "market_researcher", "competitor_scout",
   "team_investigator", "news_monitor"]

/-- Dict returned by research_node. -/
structure ResearchNodeReturn (α : Type) where
  research_outputs : List (OutputEntry α)
  errors : List String
  current_stage : String
  deriving Repr, DecidableEq

/-- research_node (src/src/workflow/nodes.py, lines 25-111). The five awaited
agent calls are injected as one TaskOutcome per task in declaration order
(gather with return_exceptions=True preserves task order and never drops a
task); the loop then builds `research_outputs` and `errors` entry by entry. -/
def research_node (o₁ o₂ o₃ o₄ o₅ : TaskOutcome α) : ResearchNodeReturn α :=
  let results := [o₁, o₂, o₃, o₄, o₅]
  let pairs := research_agent_names.zip results
  { research_outputs := pairs.map (fun p => (processAgentResult p.1 p.2).1)
    errors := pairs.filterMap (fun p => (processAgentResult p.1 p.2).2)
    current_stage := "research_complete" }

/-- Dict returned by validate_research_node. -/
structure ValidateNodeReturn where
  current_stage : String
  errors : List String
  deriving Repr, DecidableEq

/-- validate_research_node (src/src/workflow/nodes.py, lines 113-144). -/
def validate_research_node (s : DueDiligenceState α) : ValidateNodeReturn :=
  let research_outputs := s.research_outputs
  let success_count := (research_outputs.filter (fun r => r.success)).length
  let total_count := research_outputs.length
  let errs :=
    if 0 < total_count ∧ (success_count : ℚ) / (total_count : ℚ) < 1/2 then
      ["CRITICAL: Only " ++ toString success_count ++ "/" ++ toString total_count
        ++ " research agents succeeded"]
    else []
  { current_stage := "research_validated", errors := errs }

/-- Names of the first analysis batch, in declaration order
(src/src/workflow/nodes.py, line 226). -/
def first_batch_names : List String :=
  ["financial_analyst", "tech_evaluator", "legal_reviewer"]

/-- Dict returned by analysis_node. -/
structure AnalysisNodeReturn (α : Type) where
  analysis_outputs : List (OutputEntry α)
  errors : List String
  current_stage : String
  deriving Repr, DecidableEq

/-- analysis_node — the second definition in the file, which shadows the
earlier stub (src/src/workflow/nodes.py, lines 180-287). The three awaited
first-batch calls are injected as TaskOutcomes in declaration order;
risk_assessor runs only after the first batch settles and may read its
aggregated outputs, so its outcome is injected as a function of those
(its branch builds the same dicts as `processAgentResult`). -/
def analysis_node (fin tech legal : TaskOutcome α)
    (risk : List (OutputEntry α) → TaskOutcome α) : AnalysisNodeReturn α :=
  let firstPairs := first_batch_names.zip [fin, tech, legal]
  let firstEntries := firstPairs.map (fun p => (processAgentResult p.1 p.2).1)
  let firstErrors := firstPairs.filterMap (fun p => (processAgentResult p.1 p.2).2)
  let riskStep := processAgentResult "risk_assessor" (risk firstEntries)
  { analysis_outputs := firstEntries ++ [riskStep.1]
    errors := firstErrors ++ (riskStep.2.map (fun e => [e])).getD []
    current_stage := "analysis_complete" }

/-- Number of entries with a truthy success flag, as counted by routing.py
line 52 and nodes.py line 124. -/
def successCount (l : List (OutputEntry α)) : Nat :=
  (l.filter (fun r => r.success)).length

/-- Exact arithmetic form of the threshold test: `0.5 <= s / t` with `t > 0`
is the integer comparison `t <= 2 * s`. -/
theorem half_le_ratio_iff (s t : ℕ) (ht : 0 < t) :
    (1:ℚ)/2 ≤ (s:ℚ)/(t:ℚ) ↔ t ≤ 2 * s := by
  rw [div_le_div_iff₀ (by norm_num) (by exact_mod_cast ht), one_mul, mul_comm]
  constructor <;> intro h <;> exact_mod_cast h

/-- Exact arithmetic form of the strict threshold test. -/
theorem ratio_lt_half_iff (s t : ℕ) (ht : 0 < t) :
    (s:ℚ)/(t:ℚ) < 1/2 ↔ 2 * s < t := by
  rw [← not_le, half_le_ratio_iff s t ht, not_le]

/-- Executable characterization of check_research_completeness: the rational
threshold test reduced to integer comparisons. -/
theorem check_research_eq (s : DueDiligenceState α) :
    check_research_completeness s =
      if s.research_outputs.isEmpty then
        if s.retry_count < 2 then "incomplete" else "failed"
      else if s.research_outputs.length ≤ 2 * successCount s.research_outputs then
        "complete"
      else if s.retry_count < 2 then "incomplete" else "complete" := by
  unfold check_research_completeness successCount
  cases h : s.research_outputs.isEmpty with
  | true => simp [h]
  | false =>
    have hne : s.research_outputs ≠ [] := by
      simpa [List.isEmpty_iff] using h
    have hlen : 0 < s.research_outputs.length := List.length_pos.mpr hne
    simp only [h, Bool.false_eq_true, if_false]
    rw [if_neg (Nat.pos_iff_ne_zero.mp hlen)]
    by_cases hth : s.research_outputs.length ≤
        2 * (s.research_outputs.filter (fun r => r.success)).length
    · have hq : (1:ℚ)/2 ≤
          ((s.research_outputs.filter (fun r => r.success)).length : ℚ) /
            (s.research_outputs.length : ℚ) :=
        (half_le_ratio_iff _ _ hlen).mpr hth
      rw [if_pos hq, if_pos hth]
    · have hq : ¬ ((1:ℚ)/2 ≤
          ((s.research_outputs.filter (fun r => r.success)).length : ℚ) /
            (s.research_outputs.length : ℚ)) :=
        fun hc => hth ((half_le_ratio_iff _ _ hlen).mp hc)
      rw [if_neg hq, if_neg hth]

/-- Same characterization for the variant without the defensive branch. -/
theorem check_research_nodef_eq (s : DueDiligenceState α) :
    check_research_completeness_nodef s =
      if s.research_outputs.isEmpty then
        if s.retry_count < 2 then "incomplete" else "failed"
      else if s.research_outputs.length ≤ 2 * successCount s.research_outputs then
        "complete"
      else if s.retry_count < 2 then "incomplete" else "complete" := by
  unfold check_research_completeness_nodef successCount
  cases h : s.research_outputs.isEmpty with
  | true => simp [h]
  | false =>
    have hne : s.research_outputs ≠ [] := by
      simpa [List.isEmpty_iff] using h
    have hlen : 0 < s.research_outputs.length := List.length_pos.mpr hne
    simp only [h, Bool.false_eq_true, if_false]
    by_cases hth : s.research_outputs.length ≤
        2 * (s.research_outputs.filter (fun r => r.success)).length
    · have hq : (1:ℚ)/2 ≤
          ((s.research_outputs.filter (fun r => r.success)).length : ℚ) /
            (s.research_outputs.length : ℚ) :=
        (half_le_ratio_iff _ _ hlen).mpr hth
      rw [if_pos hq, if_pos hth]
    · have hq : ¬ ((1:ℚ)/2 ≤
          ((s.research_outputs.filter (fun r => r.success)).length : ℚ) /
            (s.research_outputs.length : ℚ)) :=
        fun hc => hth ((half_le_ratio_iff _ _ hlen).mp hc)
      rw [if_neg hq, if_neg hth]

/-- Nonempty lists have isEmpty = false. -/
theorem isEmpty_false_of_ne_nil {l : List β} (h : l ≠ []) : l.isEmpty = false := by
  cases l with
  | nil => exact absurd rfl h
  | cons a as => rfl

/-- A research output entry recorded for a succeeded (`b = true`) or failed
(`b = false`) agent, used to build concrete workflow states. -/
def sampleEntry (n : String) (b : Bool) : OutputEntry Unit :=
  if b then
    { agent := n, output := none, raw_output := some "text", success := true,
      execution_time_ms := some 10 }
  else
    { agent := n, output := none, success := false, error := some "agent failed" }

/-- Concrete state: five research entries, three successes, retry_count 0. -/
def state_3of5 : DueDiligenceState Unit :=
  { startup_name := "Acme", startup_description := "desc", funding_stage := none
    research_outputs :=
      [sampleEntry "company_profiler" true, sampleEntry "market_researcher" true,
       sampleEntry "competitor_scout" true, sampleEntry "team_investigator" false,
       sampleEntry "news_monitor" false]
    analysis_outputs := [], full_report := none, investment_decision := none
    current_stage := "research_complete", errors := [], retry_count := 0 }

/-- Concrete state: five research entries, two successes, retry_count 0. -/
def state_2of5 : DueDiligenceState Unit :=
  { startup_name := "Acme", startup_description := "desc", funding_stage := none
    research_outputs :=
      [sampleEntry "company_profiler" true, sampleEntry "market_researcher" true,
       sampleEntry "competitor_scout" false, sampleEntry "team_investigator" false,
       sampleEntry "news_monitor" false]
    analysis_outputs := [], full_report := none, investment_decision := none
    current_stage := "research_complete", errors := [], retry_count := 0 }

/-- Concrete state: five research entries, zero successes, retry_count 2. -/
def state_0of5_retry2 : DueDiligenceState Unit :=
  { startup_name := "Acme", startup_description := "desc", funding_stage := none
    research_outputs :=
      [sampleEntry "company_profiler" false, sampleEntry "market_researcher" false,
       sampleEntry "competitor_scout" false, sampleEntry "team_investigator" false,
       sampleEntry "news_monitor" false]
    analysis_outputs := [], full_report := none, investment_decision := none
    current_stage := "research_complete", errors := [], retry_count := 2 }

/-- C1: check_research_completeness returns "incomplete" on empty outputs with
retry_count < 2, "failed" on empty outputs with retry_count >= 2; otherwise,
with ratio = successes / total, "complete" when ratio >= 0.5, "incomplete"
when ratio < 0.5 and retry_count < 2, and "complete" (degraded) when
ratio < 0.5 and retry_count >= 2; with 5 entries and retry_count < 2, exactly
2 successes gives "incomplete" and exactly 3 successes gives "complete". -/
theorem research_completeness_classification (s : DueDiligenceState α) :
    (s.research_outputs = [] → s.retry_count < 2 →
      check_research_completeness s = "incomplete") ∧
    (s.research_outputs = [] → 2 ≤ s.retry_count →
      check_research_completeness s = "failed") ∧
    (s.research_outputs ≠ [] →
      ((successCount s.research_outputs : ℚ) / (s.research_outputs.length : ℚ) ≥ 1/2 →
        check_research_completeness s = "complete") ∧
      ((successCount s.research_outputs : ℚ) / (s.research_outputs.length : ℚ) < 1/2 →
        s.retry_count < 2 → check_research_completeness s = "incomplete") ∧
      ((successCount s.research_outputs : ℚ) / (s.research_outputs.length : ℚ) < 1/2 →
        2 ≤ s.retry_count → check_research_completeness s = "complete")) ∧
    (s.research_outputs.length = 5 → s.retry_count < 2 →
      (successCount s.research_outputs = 2 →
        check_research_completeness s = "incomplete") ∧
      (successCount s.research_outputs = 3 →
        check_research_completeness s = "complete")) := by
  rw [check_research_eq]
  refine ⟨?_, ?_, ?_, ?_⟩
  · intro he hr
    simp [he, hr]
  · intro he hr
    simp [he, Nat.not_lt.mpr hr]
  · intro hne
    have hlen : 0 < s.research_outputs.length := List.length_pos.mpr hne
    have hie := isEmpty_false_of_ne_nil hne
    refine ⟨?_, ?_, ?_⟩
    · intro hge
      have hth := (half_le_ratio_iff _ _ hlen).mp hge
      simp [hie, hth]
    · intro hlt hr
      have h2 := (ratio_lt_half_iff _ _ hlen).mp hlt
      have hth : ¬ (s.research_outputs.length ≤ 2 * successCount s.research_outputs) := by
        omega
      simp [hie, hth, hr]
    · intro hlt hr
      have h2 := (ratio_lt_half_iff _ _ hlen).mp hlt
      have hth : ¬ (s.research_outputs.length ≤ 2 * successCount s.research_outputs) := by
        omega
      simp [hie, hth, Nat.not_lt.mpr hr]
  · intro h5 hr
    have hie := isEmpty_false_of_ne_nil
      (fun he => by simp [he] at h5 : s.research_outputs ≠ [])
    constructor
    · intro hs
      simp [hie, h5, hs, hr]
    · intro hs
      simp [hie, h5, hs]

/-- Witness for the C1 theorem at two concrete five-entry states. -/
theorem research_completeness_classification_witness :
    check_research_completeness state_3of5 = "complete" ∧
    check_research_completeness state_2of5 = "incomplete" :=
  ⟨((research_completeness_classification state_3of5).2.2.2
      (by decide) (by decide)).2 (by decide),
   ((research_completeness_classification state_2of5).2.2.2
      (by decide) (by decide)).1 (by decide)⟩

/-- C2 counterexample: with five entries none succeeded and retry_count = 2,
check_research_completeness returns "complete" (degraded mode), not "failed":
the FAILED outcome requires research_outputs to be empty. -/
theorem retry_exhaustion_counterexample :
    check_research_completeness state_0of5_retry2 = "complete" ∧
    check_research_completeness state_0of5_retry2 ≠ "failed" := by
  rw [check_research_eq]
  exact ⟨by decide, by decide⟩

/-- C2 amended: with five recorded entries of which none succeeded and
retry_count = 2, the evaluator proceeds in degraded mode and returns
"complete"; "failed" is reserved for exhausted retries with no recorded
outputs at all. -/
theorem retry_exhaustion_degraded (s : DueDiligenceState α)
    (h5 : s.research_outputs.length = 5)
    (h0 : successCount s.research_outputs = 0)
    (hr : s.retry_count = 2) :
    check_research_completeness s = "complete" := by
  rw [check_research_eq]
  have hie := isEmpty_false_of_ne_nil
    (fun he => by simp [he] at h5 : s.research_outputs ≠ [])
  simp [hie, h5, h0, hr]

/-- Witness for the amended C2 theorem at the concrete 0-of-5 state. -/
theorem retry_exhaustion_degraded_witness :
    check_research_completeness state_0of5_retry2 = "complete" :=
  retry_exhaustion_degraded state_0of5_retry2 (by decide) (by decide) (by decide)

/-- C9: the ratio in check_research_completeness is computed only on the
branch where research_outputs is non-empty, where the denominator is
positive; the defensive total_count == 0 branch is unreachable: removing it
leaves the function unchanged on every state. -/
theorem division_guard_unreachable (s : DueDiligenceState α) :
    (s.research_outputs ≠ [] → 0 < s.research_outputs.length) ∧
    check_research_completeness s = check_research_completeness_nodef s :=
  ⟨fun hne => List.length_pos.mpr hne,
   by rw [check_research_eq, check_research_nodef_eq]⟩

/-- Witness for the C9 theorem at a concrete non-empty state. -/
theorem division_guard_unreachable_witness :
    0 < state_0of5_retry2.research_outputs.length ∧
    check_research_completeness state_0of5_retry2 =
      check_research_completeness_nodef state_0of5_retry2 :=
  ⟨(division_guard_unreachable state_0of5_retry2).1 (by decide),
   (division_guard_unreachable state_0of5_retry2).2⟩

/-- C8: check_init_success returns "failed" exactly when some accumulated
error message contains the marker "required" case-insensitively, and returns
"success" otherwise. -/
theorem init_routing_required_marker (s : DueDiligenceState α) :
    (check_init_success s = "failed" ↔
      ∃ e ∈ s.errors, containsSub "required".data (pyLowerChars e) = true) ∧
    (check_init_success s = "success" ↔
      ¬ ∃ e ∈ s.errors, containsSub "required".data (pyLowerChars e) = true) := by
  unfold check_init_success
  by_cases h : ∃ e ∈ s.errors, containsSub "required".data (pyLowerChars e) = true
  · obtain ⟨e, he, hp⟩ := h
    have hne : s.errors.filter (fun x => containsSub "required".data (pyLowerChars x)) ≠ [] := by
      intro hnil
      exact absurd hp (List.filter_eq_nil_iff.mp hnil e he)
    rw [if_pos hne]
    exact ⟨iff_of_true rfl ⟨e, he, hp⟩,
      iff_of_false (by decide) (not_not_intro ⟨e, he, hp⟩)⟩
  · have hnil : s.errors.filter (fun x => containsSub "required".data (pyLowerChars x)) = [] :=
      List.filter_eq_nil_iff.mpr (fun a ha hp => h ⟨a, ha, hp⟩)
    rw [if_neg (fun hk => hk hnil)]
    exact ⟨iff_of_false (by decide) h, iff_of_true rfl h⟩

/-- Concrete state carrying a required-input critical error. -/
def state_missing_required : DueDiligenceState Unit :=
  { startup_name := "", startup_description := "desc", funding_stage := none
    research_outputs := [], analysis_outputs := [], full_report := none
    investment_decision := none, current_stage := "init"
    errors := ["Missing REQUIRED input: startup_name"], retry_count := 0 }

/-- Witness for the C8 theorem: a state with a required-input error routes to
"failed", and the freshly created state routes to "success". -/
theorem init_routing_required_marker_witness :
    check_init_success state_missing_required = "failed" ∧
    check_init_success (create_initial_state Unit "Acme" "desc" none) = "success" :=
  ⟨(init_routing_required_marker state_missing_required).1.mpr
      ⟨"Missing REQUIRED input: startup_name", by decide, by decide⟩,
   (init_routing_required_marker (create_initial_state Unit "Acme" "desc" none)).2.mpr
      (by rintro ⟨e, he, -⟩; cases he)⟩

/-- C10: validate_research_node always moves the stage marker to
"research_validated"; it appends a CRITICAL error exactly when
research_outputs is non-empty with success ratio strictly below one half, and
an empty research_outputs list passes with no error appended. -/
theorem validate_research_never_blocks (s : DueDiligenceState α) :
    (validate_research_node s).current_stage = "research_validated" ∧
    ((validate_research_node s).errors ≠ [] ↔
      (s.research_outputs ≠ [] ∧
        (successCount s.research_outputs : ℚ) / (s.research_outputs.length : ℚ) < 1/2)) ∧
    (s.research_outputs = [] → (validate_research_node s).errors = []) := by
  have herr : (validate_research_node s).errors =
      (if 0 < s.research_outputs.length ∧
          ((s.research_outputs.filter (fun r => r.success)).length : ℚ) /
            (s.research_outputs.length : ℚ) < 1/2 then
        ["CRITICAL: Only " ++ toString (s.research_outputs.filter (fun r => r.success)).length
          ++ "/" ++ toString s.research_outputs.length ++ " research agents succeeded"]
      else []) := rfl
  refine ⟨rfl, ?_, ?_⟩
  · rw [herr]
    by_cases hc : 0 < s.research_outputs.length ∧
        ((s.research_outputs.filter (fun r => r.success)).length : ℚ) /
          (s.research_outputs.length : ℚ) < 1/2
    · rw [if_pos hc]
      exact iff_of_true (by simp)
        ⟨List.length_pos.mp hc.1, by simpa [successCount] using hc.2⟩
    · rw [if_neg hc]
      constructor
      · intro hcon
        exact absurd rfl hcon
      · rintro ⟨hne, hlt⟩
        exact absurd ⟨List.length_pos.mpr hne, by simpa [successCount] using hlt⟩ hc
  · intro he
    rw [herr, if_neg (by simp [he])]

/-- Witness for the C10 theorem at the just-created initial state. -/
theorem validate_research_never_blocks_witness :
    (validate_research_node (create_initial_state Unit "Acme" "desc" none)).current_stage
      = "research_validated" ∧
    (validate_research_node (create_initial_state Unit "Acme" "desc" none)).errors = [] :=
  ⟨(validate_research_never_blocks (create_initial_state Unit "Acme" "desc" none)).1,
   (validate_research_never_blocks (create_initial_state Unit "Acme" "desc" none)).2.2 rfl⟩

/-- The recorded entry always carries the agent's declared name. -/
theorem processAgentResult_agent (n : String) (o : TaskOutcome α) :
    (processAgentResult n o).1.agent = n := by
  cases o with
  | exn m => rfl
  | ok r =>
    by_cases h : r.success <;> simp [processAgentResult, h]

/-- Entry-level invariant: provided a returned result satisfies the
success/error dichotomy, the recorded entry satisfies both invariant
clauses. -/
theorem processAgentResult_invariant (n : String) (o : TaskOutcome α)
    (h : ∀ r, o = TaskOutcome.ok r → (r.success = true ↔ r.error = none)) :
    ((processAgentResult n o).1.success = true ↔ (processAgentResult n o).1.error = none) ∧
    ((processAgentResult n o).1.success = false → (processAgentResult n o).1.output = none) := by
  cases o with
  | exn m => simp [processAgentResult]
  | ok r =>
    by_cases hs : r.success
    · simp [processAgentResult, hs]
    · have herr : r.error ≠ none := fun hn =>
        absurd ((h r rfl).mpr hn) (by simp [hs])
      simp [processAgentResult, hs, herr]

/-- C6: run_agent converts every invocation outcome into a returned
AgentResult — nothing propagates as an exception: completion yields a success
result carrying the text, a timeout yields a failure whose error is
"Timeout after Ns", and any other exception yields a failure whose error is
the exception's message. -/
theorem run_agent_uniform_error_surface (α : Type) (name : String) (t e : Nat)
    (text msg : String) :
    run_agent α name t (InvokeOutcome.completes text) e =
      { success := true, output := none, raw_output := some text, error := none,
        agent_name := name, execution_time_ms := e } ∧
    run_agent α name t InvokeOutcome.timesOut e =
      { success := false, output := none, raw_output := none,
        error := some ("Timeout after " ++ toString t ++ "s"),
        agent_name := name, execution_time_ms := e } ∧
    run_agent α name t (InvokeOutcome.raises msg) e =
      { success := false, output := none, raw_output := none, error := some msg,
        agent_name := name, execution_time_ms := e } :=
  ⟨rfl, rfl, rfl⟩

/-- C4: both stage nodes record exactly one entry per declared task, in task
declaration order, whatever the individual outcomes were. -/
theorem stage_results_declaration_order (o₁ o₂ o₃ o₄ o₅ fin tech legal : TaskOutcome α)
    (risk : List (OutputEntry α) → TaskOutcome α) :
    (research_node o₁ o₂ o₃ o₄ o₅).research_outputs.length = 5 ∧
    (research_node o₁ o₂ o₃ o₄ o₅).research_outputs.map (fun en => en.agent) =
      ["company_profiler", "market_researcher", "competitor_scout",
       "team_investigator", "news_monitor"] ∧
    (analysis_node fin tech legal risk).analysis_outputs.length = 4 ∧
    (analysis_node fin tech legal risk).analysis_outputs.map (fun en => en.agent) =
      ["financial_analyst", "tech_evaluator", "legal_reviewer", "risk_assessor"] := by
  refine ⟨?_, ?_, ?_, ?_⟩ <;>
    simp [research_node, analysis_node, research_agent_names, first_batch_names,
      processAgentResult_agent]

/-- C3: in research_node every task is recorded with its own outcome
independently of its siblings (entry i is a function of outcome i alone); a
sibling that returns success is recorded with success = true, a task that
raises is recorded as a failed entry carrying the exception message, and its
message (as well as that of a task returning a failed result) is appended to
errors. -/
theorem research_failure_isolation (o₁ o₂ o₃ o₄ o₅ : TaskOutcome α) :
    (research_node o₁ o₂ o₃ o₄ o₅).research_outputs =
      (research_agent_names.zip [o₁, o₂, o₃, o₄, o₅]).map
        (fun p => (processAgentResult p.1 p.2).1) ∧
    (∀ (n : String) (r : AgentResult α), r.success = true →
      (processAgentResult n (TaskOutcome.ok r)).1.success = true ∧
      (processAgentResult n (TaskOutcome.ok r)).1.error = none) ∧
    (∀ (n msg : String),
      (processAgentResult (α := α) n (TaskOutcome.exn msg)).1.success = false ∧
      (processAgentResult (α := α) n (TaskOutcome.exn msg)).1.error = some msg) ∧
    (∀ p ∈ research_agent_names.zip [o₁, o₂, o₃, o₄, o₅], ∀ msg,
      p.2 = TaskOutcome.exn msg →
        (p.1 ++ ": " ++ msg) ∈ (research_node o₁ o₂ o₃ o₄ o₅).errors) ∧
    (∀ p ∈ research_agent_names.zip [o₁, o₂, o₃, o₄, o₅], ∀ r,
      p.2 = TaskOutcome.ok r → r.success = false →
        (p.1 ++ ": " ++ pyOptStr r.error) ∈ (research_node o₁ o₂ o₃ o₄ o₅).errors) := by
  refine ⟨rfl, ?_, ?_, ?_, ?_⟩
  · intro n r h
    simp [processAgentResult, h]
  · intro n msg
    simp [processAgentResult]
  · intro p hp msg hmsg
    show (p.1 ++ ": " ++ msg) ∈
      (research_agent_names.zip [o₁, o₂, o₃, o₄, o₅]).filterMap
        (fun q => (processAgentResult q.1 q.2).2)
    exact List.mem_filterMap.mpr ⟨p, hp, by simp [hmsg, processAgentResult]⟩
  · intro p hp r hr hfail
    show (p.1 ++ ": " ++ pyOptStr r.error) ∈
      (research_agent_names.zip [o₁, o₂, o₃, o₄, o₅]).filterMap
        (fun q => (processAgentResult q.1 q.2).2)
    exact List.mem_filterMap.mpr ⟨p, hp, by simp [hr, processAgentResult, hfail]⟩

/-- C5: every result produced by run_agent satisfies success ⟺ error = null
and failure ⟹ output = null; and every entry the stage nodes record into
research_outputs / analysis_outputs satisfies the same invariant, given that
the injected agent results themselves satisfy the success/error dichotomy
(which run_agent guarantees for all real agents). -/
theorem result_error_invariant {α : Type} :
    (∀ (name : String) (t e : Nat) (inv : InvokeOutcome),
      ((run_agent α name t inv e).success = true ↔ (run_agent α name t inv e).error = none) ∧
      ((run_agent α name t inv e).success = false → (run_agent α name t inv e).output = none)) ∧
    (∀ o₁ o₂ o₃ o₄ o₅ : TaskOutcome α,
      (∀ o ∈ [o₁, o₂, o₃, o₄, o₅], ∀ r, o = TaskOutcome.ok r →
        (r.success = true ↔ r.error = none)) →
      ∀ entry ∈ (research_node o₁ o₂ o₃ o₄ o₅).research_outputs,
        (entry.success = true ↔ entry.error = none) ∧
        (entry.success = false → entry.output = none)) ∧
    (∀ (fin tech legal : TaskOutcome α) (risk : List (OutputEntry α) → TaskOutcome α),
      (∀ o ∈ [fin, tech, legal], ∀ r, o = TaskOutcome.ok r →
        (r.success = true ↔ r.error = none)) →
      (∀ l r, risk l = TaskOutcome.ok r → (r.success = true ↔ r.error = none)) →
      ∀ entry ∈ (analysis_node fin tech legal risk).analysis_outputs,
        (entry.success = true ↔ entry.error = none) ∧
        (entry.success = false → entry.output = none)) := by
  refine ⟨?_, ?_, ?_⟩
  · intro name t e inv
    cases inv <;> simp [run_agent]
  · intro o₁ o₂ o₃ o₄ o₅ h entry hm
    simp only [research_node] at hm
    obtain ⟨p, hp, hpe⟩ := List.mem_map.mp hm
    rw [← hpe]
    exact processAgentResult_invariant p.1 p.2
      (fun r hr => h p.2 (List.of_mem_zip hp).2 r hr)
  · intro fin tech legal risk hf hrisk entry hm
    simp only [analysis_node] at hm
    rcases List.mem_append.mp hm with h1 | h2
    · obtain ⟨p, hp, hpe⟩ := List.mem_map.mp h1
      rw [← hpe]
      exact processAgentResult_invariant p.1 p.2
        (fun r hr => hf p.2 (List.of_mem_zip hp).2 r hr)
    · rw [List.mem_singleton.mp h2]
      exact processAgentResult_invariant "risk_assessor" _
        (fun r hr => hrisk _ r hr)

/-- A succeeded concrete agent result, for witnesses. -/
def okRes (n : String) : AgentResult Unit :=
  { success := true, raw_output := some "txt", error := none, agent_name := n,
    execution_time_ms := 5 }

/-- A succeeded concrete task outcome, for witnesses. -/
def okOutcome (n : String) : TaskOutcome Unit :=
  TaskOutcome.ok (okRes n)

/-- A returned-but-failed concrete task outcome, for witnesses. -/
def failOutcome (n : String) : TaskOutcome Unit :=
  TaskOutcome.ok
    { success := false, error := some "agent failed", agent_name := n,
      execution_time_ms := 5 }

/-- The entry research_node records for failOutcome "market_researcher". -/
def sampleFailedEntry : OutputEntry Unit :=
  { agent := "market_researcher", output := none, success := false,
    error := some "agent failed" }

/-- Witness for the C3 theorem: with market_researcher raising and the other
four succeeding, a sibling is recorded successful and the raiser's message
lands in errors. -/
theorem research_failure_isolation_witness :
    (processAgentResult "company_profiler" (okOutcome "company_profiler")).1.success = true ∧
    ("market_researcher: boom") ∈
      (research_node (okOutcome "company_profiler") (TaskOutcome.exn "boom")
        (okOutcome "competitor_scout") (okOutcome "team_investigator")
        (okOutcome "news_monitor")).errors :=
  ⟨((research_failure_isolation (okOutcome "company_profiler") (TaskOutcome.exn "boom")
      (okOutcome "competitor_scout") (okOutcome "team_investigator")
      (okOutcome "news_monitor")).2.1 "company_profiler"
      (okRes "company_profiler") (by decide)).1,
   (research_failure_isolation (okOutcome "company_profiler") (TaskOutcome.exn "boom")
      (okOutcome "competitor_scout") (okOutcome "team_investigator")
      (okOutcome "news_monitor")).2.2.2.1
      ("market_researcher", TaskOutcome.exn "boom") (by decide) "boom" rfl⟩

/-- Witness for the C5 theorem: a timeout result from run_agent and a
recorded failed entry of research_node both satisfy the invariant. -/
theorem result_error_invariant_witness :
    ((run_agent Unit "probe" 60 InvokeOutcome.timesOut 3).success = true ↔
      (run_agent Unit "probe" 60 InvokeOutcome.timesOut 3).error = none) ∧
    ((sampleFailedEntry.success = true ↔ sampleFailedEntry.error = none) ∧
      (sampleFailedEntry.success = false → sampleFailedEntry.output = none)) := by
  have hdichotomy : ∀ o ∈ [okOutcome "company_profiler", failOutcome "market_researcher",
      okOutcome "competitor_scout", okOutcome "team_investigator",
      okOutcome "news_monitor"], ∀ r, o = TaskOutcome.ok r →
      (r.success = true ↔ r.error = none) := by
    intro o ho r hr
    simp only [List.mem_cons, List.not_mem_nil, or_false] at ho
    rcases ho with rfl | rfl | rfl | rfl | rfl <;>
      (simp only [okOutcome, failOutcome, okRes] at hr; cases hr; decide)
  exact ⟨(result_error_invariant.1 "probe" 60 3 InvokeOutcome.timesOut).1,
    result_error_invariant.2.1 (okOutcome "company_profiler")
      (failOutcome "market_researcher") (okOutcome "competitor_scout")
      (okOutcome "team_investigator") (okOutcome "news_monitor") hdichotomy
      sampleFailedEntry (by decide)⟩

/-- The code-block loop is the first defined element of the per-block parse
results. -/
theorem firstBlockParse_eq_firstSomeOpt (loads : String → Option α) (ms : List String) :
    firstBlockParse loads ms = firstSomeOpt (ms.map (fun m => loads (pyStrip m))) := by
  induction ms with
  | nil => rfl
  | cons m rest ih =>
    simp only [firstBlockParse, List.map_cons, firstSomeOpt]
    cases loads (pyStrip m) <;> simp [ih]

/-- Appending one final strategy to the chain: it fires only when everything
before it failed. -/
theorem firstSomeOpt_append_singleton (l : List (Option α)) (b : Option α) :
    firstSomeOpt (l ++ [b]) =
      match firstSomeOpt l with
      | some v => some v
      | none => b := by
  induction l with
  | nil => cases b <;> rfl
  | cons o rest ih => cases o <;> simp [firstSomeOpt, ih]

/-- C7: parse_json_from_output is exactly the ordered fallback chain — whole
text, then each fenced block in order, then the first-lbrace-to-last-rbrace
substring — returning the first successful parse and none when everything
fails or the input is empty; and in run_company_profiler a parse failure
leaves output null while success and the raw text are always preserved. -/
theorem parse_fallback_chain {α : Type} (loads : String → Option α)
    (output : String) (truthy : α → Bool) (result : AgentResult α) :
    parse_json_from_output loads output = parse_chain_spec loads output ∧
    parse_json_from_output loads "" = none ∧
    (run_company_profiler loads truthy result).success = result.success ∧
    (run_company_profiler loads truthy result).raw_output = result.raw_output ∧
    (∀ raw, result.raw_output = some raw → result.output = none →
      parse_json_from_output loads raw = none →
      (run_company_profiler loads truthy result).output = none) := by
  refine ⟨?_, rfl, ?_, ?_, ?_⟩
  · unfold parse_json_from_output parse_chain_spec
    by_cases he : output = ""
    · simp [he]
    · simp only [he, if_false]
      rw [List.singleton_append, List.cons_append]
      simp only [firstSomeOpt]
      cases loads output with
      | some v => rfl
      | none =>
        dsimp only
        rw [firstBlockParse_eq_firstSomeOpt, firstSomeOpt_append_singleton]
        cases firstSomeOpt ((pyFindallCodeBlocks output).map (fun m => loads (pyStrip m))) with
        | some v => rfl
        | none => cases pyBraceSlice output <;> rfl
  · unfold run_company_profiler
    cases hres : result.raw_output with
    | none => rfl
    | some raw =>
      dsimp only
      split
      · split
        · rfl
        · split <;> rfl
      · rfl
  · unfold run_company_profiler
    cases hres : result.raw_output with
    | none => exact hres
    | some raw =>
      dsimp only
      split
      · split
        · exact hres
        · split <;> first | rfl | exact hres
      · exact hres
  · intro raw hraw hout hparse
    unfold run_company_profiler
    rw [hraw]
    dsimp only
    split
    · rw [hparse]
      exact hout
    · exact hout

/-- A parse function for the C7 witness: accepts exactly the string "7". -/
def loadsOnly7 (s : String) : Option Nat :=
  if s = "7" then some 7 else none

/-- An agent result whose raw output no strategy can parse. -/
def unparsedResult : AgentResult Nat :=
  { success := true, output := none, raw_output := some "unparseable",
    error := none, agent_name := "company_profiler", execution_time_ms := 4 }

/-- Witness for the C7 theorem: the chain agrees on a concrete input and a
concrete parse failure leaves output null with success and raw text kept. -/
theorem parse_fallback_chain_witness :
    parse_json_from_output loadsOnly7 "unparseable" =
      parse_chain_spec loadsOnly7 "unparseable" ∧
    (run_company_profiler loadsOnly7 (fun _ => true) unparsedResult).success = true ∧
    (run_company_profiler loadsOnly7 (fun _ => true) unparsedResult).raw_output =
      some "unparseable" ∧
    (run_company_profiler loadsOnly7 (fun _ => true) unparsedResult).output = none := by
  obtain ⟨h1, -, h3, h4, h5⟩ :=
    parse_fallback_chain loadsOnly7 "unparseable" (fun _ => true) unparsedResult
  exact ⟨h1, by rw [h3]; rfl, by rw [h4]; rfl,
    h5 "unparseable" rfl rfl (by decide)⟩

end LangClaude
